import Mathlib

/-!
Verification of the RomPi download-queue core (src/app.py, src/vimm.py).

The queue state lives in the module-level variables `download_queue`,
`queue_processing` and the background worker thread running
`process_queue`.  Every mutation of the queue happens inside a
`with queue_lock:` block, so each such block is modelled as one atomic
transition.  Queue items are Python dicts; we model the fields that the
queue logic reads and writes (`download_url`, `title`, `completed`,
`downloading`, `gid`, `error`, `filename`, `file_path`).  The
`added_at` timestamp and the `game_page_url` referer field never
influence control flow and are carried only where cheap.

Python strings are modelled as Lean `String`; the handful of string
operations used by the code (`.lower()`, `.strip()`, `.startswith`,
substring containment via `in`) are implemented structurally over
`String.data` so that proofs can evaluate them.
-/

/-- Python `s.lower()` (the code only lowercases ASCII data). -/
def lowerStr (s : String) : String := ⟨s.data.map Char.toLower⟩

/-- Occurrence test for a pattern in a character list, used to model
the Python substring operator `in`. -/
def containsList : List Char → List Char → Bool
  | [], t => t.isEmpty
  | c :: rest, t => t.isPrefixOf (c :: rest) || containsList rest t

/-- Python `t in s` (substring containment). -/
def containsSub (s t : String) : Bool := containsList s.data t.data

/-- Python `s.strip()`. -/
def trimStr (s : String) : String :=
  ⟨((s.data.dropWhile Char.isWhitespace).reverse.dropWhile Char.isWhitespace).reverse⟩

/-- Python `s.startswith(t)`. -/
def startsWithStr (s t : String) : Bool := t.data.isPrefixOf s.data

/-- Python `s.endswith(t)`. -/
def endsWithStr (s t : String) : Bool := t.data.isSuffixOf s.data

/-- Decimal digits of a server number (the code only ever renders the
mirror numbers 1..20, so two digits suffice; mirrors the f-string
`f"dl{server_num}"` on that domain). -/
def natDigits (n : Nat) : List Char :=
  if n < 10 then [Char.ofNat (48 + n)]
  else [Char.ofNat (48 + n / 10 % 10), Char.ofNat (48 + n % 10)]

/-- Render a mirror number as a string (domain 1..99, covering the
code domain 1..20). -/
def natStr (n : Nat) : String := ⟨natDigits n⟩

/-- One record of `download_queue` (src/app.py lines 1891-1902). -/
structure QItem where
  url : String
  title : String
  game_page_url : String
  completed : Bool
  downloading : Bool
  gid : Option Nat
  error : Option String
  filename : String
  file_path : String
deriving Repr, DecidableEq

/-- Constant `MAX_QUEUE_SIZE` (src/app.py line 26). -/
def MAX_QUEUE_SIZE : Nat := 20

/-- Eligibility test from the worker selection loop
(src/app.py lines 1301-1306): not completed, not downloading and
carrying no error. -/
def eligibleItem (it : QItem) : Bool :=
  !it.completed && !it.downloading && it.error.isNone

/-- The `is_vimm` test of `queue_add` (src/app.py line 1866). -/
def is_vimm_queue_add (u : String) : Bool :=
  containsSub (lowerStr u) "vimm.net" || containsSub (lowerStr u) "dl3.vimm.net"

/-- The `is_vimm_download` test of the worker (src/app.py line 1369);
by Python operator precedence the second disjunct is
`("dl" in url) and ("vimm.net" in url)`. -/
def is_vimm_download (u : String) : Bool :=
  containsSub (lowerStr u) "vimm.net" ||
    (containsSub (lowerStr u) "dl" && containsSub (lowerStr u) "vimm.net")

/-- Outcome of `queue_add` (src/app.py lines 1839-1909): the route
either rejects the request, leaving the queue unchanged, or appends a
fresh item. -/
inductive AddResult where
  | added
  | rejectedInvalidUrl
  | rejectedNoTitle
  | rejectedNotVimm
  | rejectedQueueFull
  | rejectedDuplicate
deriving Repr, DecidableEq

/-- Route `queue_add` (src/app.py lines 1839-1909).  Inputs are stripped on
parse; validation happens in source order: URL shape, title, vimm
domain, capacity (`len(download_queue) >= MAX_QUEUE_SIZE`), exact
duplicate `download_url`; otherwise a fresh record is appended. -/
def queue_add (download_url title game_page_url : String) (q : List QItem) :
    AddResult × List QItem :=
  if trimStr download_url == "" ||
      !(startsWithStr (trimStr download_url) "http://" ||
        startsWithStr (trimStr download_url) "https://") then
    (.rejectedInvalidUrl, q)
  else if trimStr title == "" then
    (.rejectedNoTitle, q)
  else if !is_vimm_queue_add (trimStr download_url) then
    (.rejectedNotVimm, q)
  else if MAX_QUEUE_SIZE ≤ q.length then
    (.rejectedQueueFull, q)
  else if q.any (fun it => it.url == trimStr download_url) then
    (.rejectedDuplicate, q)
  else
    (.added, q ++ [⟨trimStr download_url, trimStr title, trimStr game_page_url,
                    false, false, none, none, "", ""⟩])

/-- Route `queue_clear` (src/app.py lines 1981-1992): keeps exactly the items
whose `completed` flag is unset. -/
def queue_clear (q : List QItem) : List QItem :=
  q.filter (fun it => !it.completed)

/-- Worker control point, abstracting where the single `process_queue`
thread stands in its loop. -/
inductive WPhase where
  | dead
  | atSelect
  | running (url : String) (gid : Option Nat)
  | monitoring (gid : Nat)
deriving Repr

/-- The shared queue state: `download_queue`, `queue_processing` and
the worker thread position. -/
structure QState where
  queue : List QItem
  processing : Bool
  worker : WPhase
deriving Repr

/-- Route `queue_stop` (src/app.py lines 1948-1978): for every engine-active
transfer whose gid matches a queued item the transfer is removed at the
engine, then processing is turned off and the queue is cleared
(`download_queue = []`).  Returns the new state and the gids removed at
the engine. -/
def queue_stop (active : List Nat) (s : QState) : QState × List Nat :=
  ({ queue := [], processing := false, worker := s.worker },
   active.filter (fun g => s.queue.any (fun it => it.gid == some g)))

/-- Update the first queue item whose `download_url` equals `u`
(the `for idx, item in enumerate(download_queue): if item.get("download_url") == ...: ...; break`
pattern used throughout `process_queue`). -/
def updateFirstUrl (u : String) (f : QItem → QItem) : List QItem → List QItem
  | [] => []
  | it :: rest =>
    if it.url == u then f it :: rest else it :: updateFirstUrl u f rest

/-- Update the first queue item whose `gid` equals `g` (the
`if item.get("gid") == gid` pattern). -/
def updateFirstGid (g : Nat) (f : QItem → QItem) : List QItem → List QItem
  | [] => []
  | it :: rest =>
    if it.gid == some g then f it :: rest else it :: updateFirstGid g f rest

/-- Selection marking (src/app.py lines 1346-1354): the first item
matching the chosen url is flagged downloading with its gid reset. -/
def markDownloading (u : String) (q : List QItem) : List QItem :=
  updateFirstUrl u (fun it => { it with downloading := true, gid := none }) q

/-- Record the engine handle after dispatch (src/app.py lines 1512-1519). -/
def setGid (u : String) (g : Nat) (q : List QItem) : List QItem :=
  updateFirstUrl u (fun it => { it with gid := some g }) q

/-- Completion marking by gid (src/app.py lines 1791-1798). -/
def completeFirstGid (g : Nat) (q : List QItem) : List QItem :=
  updateFirstGid g (fun it => { it with completed := true, downloading := false }) q

/-- Failure marking by gid (src/app.py lines 1700-1721 and 1801-1812):
the item is marked completed so future passes skip it, with the error
retained. -/
def failFirstGid (g : Nat) (msg : String) (q : List QItem) : List QItem :=
  updateFirstGid g
    (fun it => { it with downloading := false, error := some msg, completed := true }) q

/-- Failure marking by url (src/app.py lines 1687-1694 and 1731-1738). -/
def failFirstUrl (u : String) (msg : String) (q : List QItem) : List QItem :=
  updateFirstUrl u
    (fun it => { it with downloading := false, error := some msg, completed := true }) q

/-- The mirror-fallback queue rewrite (src/app.py lines 1627-1634): the
first item whose `download_url` equals the current worker url gets
the fresh gid and the new mirror url; the flag reports whether a match
was found (the code also re-points `current_item` at the matched item). -/
def rewriteFirstUrl (u : String) (g : Nat) (newUrl : String) :
    List QItem → List QItem × Bool
  | [] => ([], false)
  | it :: rest =>
    if it.url == u then ({ it with gid := some g, url := newUrl } :: rest, true)
    else
      let r := rewriteFirstUrl u g newUrl rest
      (it :: r.1, r.2)

/-- Extraction of `mediaId` (src/app.py lines 1374-1386): the `MEDIAID:`
and `?mediaId=` literal forms, otherwise the first `mediaId=(\digits)`
occurrence in the url. -/
def afterFirst : List Char → List Char → Option (List Char)
  | [], t => if t.isEmpty then some [] else none
  | c :: rest, t =>
    if t.isPrefixOf (c :: rest) then some ((c :: rest).drop t.length)
    else afterFirst rest t

/-- See `afterFirst`; media id extraction on strings. -/
def extractMediaId (u : String) : Option String :=
  if startsWithStr u "MEDIAID:" then
    if trimStr ⟨u.data.drop 8⟩ == "" then none else some (trimStr ⟨u.data.drop 8⟩)
  else if startsWithStr u "?mediaId=" then
    if trimStr ⟨u.data.drop 9⟩ == "" then none else some (trimStr ⟨u.data.drop 9⟩)
  else
    match afterFirst u.data "mediaId=".data with
    | none => none
    | some rest =>
      let ds := rest.takeWhile Char.isDigit
      if ds.isEmpty then none else some ⟨ds⟩

/-- Effective error message, `error_message or "Error code: ..." or "Unknown error"`
(src/app.py line 1532). -/
def effectiveMsg (code msg : String) : String :=
  if msg != "" then msg
  else if code != "" then "Error code: " ++ code
  else "Unknown error"

/-- The retry classification of `process_queue` (src/app.py lines
1540-1551): aria2 code 3 / "resource not found", code 19 / DNS wording,
any "429" in the message, or code 22 with not-found wording. -/
def should_retry (code msg : String) : Bool :=
  (code == "3" || containsSub (lowerStr (effectiveMsg code msg)) "resource not found") ||
  (code == "19" || containsSub (lowerStr (effectiveMsg code msg)) "dns" ||
    containsSub (lowerStr (effectiveMsg code msg)) "name resolution") ||
  (containsSub (effectiveMsg code msg) "429" ||
    (code == "22" && containsSub (effectiveMsg code msg) "429")) ||
  (code == "22" && (containsSub (lowerStr (effectiveMsg code msg)) "not found" ||
    containsSub (lowerStr (effectiveMsg code msg)) "404"))

/-- The human-readable reason recorded for a retried error
(src/app.py lines 1540-1551, the `retry_reason` strings). -/
def retryReason (code msg : String) : String :=
  if code == "3" || containsSub (lowerStr (effectiveMsg code msg)) "resource not found" then
    "Resource not found"
  else if code == "19" || containsSub (lowerStr (effectiveMsg code msg)) "dns" ||
      containsSub (lowerStr (effectiveMsg code msg)) "name resolution" then
    "DNS resolution failed"
  else if containsSub (effectiveMsg code msg) "429" ||
      (code == "22" && containsSub (effectiveMsg code msg) "429") then
    "Rate limited (429)"
  else if code == "22" && (containsSub (lowerStr (effectiveMsg code msg)) "not found" ||
      containsSub (lowerStr (effectiveMsg code msg)) "404") then
    "HTTP 404 Not found"
  else ""

/-- Probe statuses the mirror sweep commits to
(src/app.py lines 1018 and 1602): 200 and the redirect codes. -/
def accepted (st : Nat) : Bool :=
  st == 200 || st == 301 || st == 302 || st == 303 || st == 307 || st == 308

/-- Decision taken on a probe status. -/
inductive ProbeAction where
  | dispatch
  | skip
deriving Repr, DecidableEq

/-- Per-status decision of the mirror sweep of the queue worker
(src/app.py lines 1602-1675): accepted statuses dispatch; 429, 404 and
every other status are skipped. -/
def queueProbeAction (st : Nat) : ProbeAction :=
  if accepted st then .dispatch
  else if st == 429 then .skip
  else if st == 404 then .skip
  else .skip

/-- Per-status decision of the mirror sweep of the direct `download` route
(src/app.py lines 1018-1087): accepted statuses dispatch; 429 and 404
are skipped; any other status is dispatched anyway
("Other status, might work, try it anyway", line 1085). -/
def downloadProbeAction (st : Nat) : ProbeAction :=
  if accepted st then .dispatch
  else if st == 429 then .skip
  else if st == 404 then .skip
  else .dispatch

/-- Mirror url construction, `f"https://dl{server_num}.vimm.net/?mediaId={media_id}"`
(src/app.py line 1581). -/
def dlUrl (n : Nat) (mid : String) : String :=
  "https://dl" ++ natStr n ++ ".vimm.net/?mediaId=" ++ mid

/-- Environment of one mirror attempt: the probe result (`none` is a
transport-level error, `some st` an HTTP status), and, when the probe
is accepted, the gid aria2 assigns plus whether the re-dispatch
reports a clean status 3 seconds later. -/
structure ServerEnv where
  probe : Option Nat
  g : Nat
  dispatchOk : Bool

/-- Result of the fallback sweep: the updated queue, where the worker
goes next, the mirror numbers attempted, and the final
`current_server`. -/
structure SweepResult where
  queue : List QItem
  worker : WPhase
  tried : List Nat
  finalServer : Nat

/-- The mirror numbers `range(current_server + 1, 21)`
(src/app.py line 1580). -/
def serverRange (s k : Nat) : List Nat :=
  match k with
  | 0 => []
  | k + 1 => s :: serverRange (s + 1) k

/-- The exhaustion error recorded when no mirror is accepted
(src/app.py line 1686). -/
def exhaustMsg (tried : List Nat) (reason : String) : String :=
  "Tried servers " ++ String.intercalate ", " (tried.map (fun i => "dl" ++ natStr i)) ++
    " but none worked. Original error: " ++ reason

/-- Sequential mirror sweep of the queue worker (src/app.py lines
1577-1697).  `cur` is the stored url of `current_item`, `cs` the
`current_server` value, `origGid` the gid of the removed first attempt,
`found` the `working_server` flag, `tried` the `servers_tried` list.
A skipped probe advances to the next mirror; an accepted probe rewrites
the gid and url of the matched queue item and either enters monitoring (the
re-dispatch looks clean) or removes the attempt, records the server
number and continues.  When the list is exhausted, the job is marked
failed only if no probe was ever accepted; otherwise the code falls
through to the monitor loop with the original (removed) gid. -/
def sweepGo (mid : String) (env : Nat → ServerEnv) (reason : String) :
    List Nat → String → List QItem → Nat → Nat → Bool → List Nat → SweepResult
  | [], cur, q, cs, origGid, found, tried =>
    if found then ⟨q, .monitoring origGid, tried, cs⟩
    else ⟨failFirstUrl cur (exhaustMsg tried reason) q, .atSelect, tried, cs⟩
  | n :: rest, cur, q, cs, origGid, found, tried =>
    match (env n).probe with
    | none => sweepGo mid env reason rest cur q cs origGid found (tried ++ [n])
    | some st =>
      if accepted st then
        let r := rewriteFirstUrl cur (env n).g (dlUrl n mid) q
        let cur' := if r.2 then dlUrl n mid else cur
        if (env n).dispatchOk then
          ⟨r.1, .monitoring (env n).g, tried ++ [n], cs⟩
        else
          sweepGo mid env reason rest cur' r.1 n origGid true (tried ++ [n])
      else
        sweepGo mid env reason rest cur q cs origGid found (tried ++ [n])

/-- Entry point of the sweep: mirrors `current_server + 1` through 20
(src/app.py line 1580), starting with no accepted server and an empty
attempt list. -/
def sweep (mid : String) (env : Nat → ServerEnv) (reason cur : String)
    (q : List QItem) (cs origGid : Nat) : SweepResult :=
  sweepGo mid env reason (serverRange (cs + 1) (20 - cs)) cur q cs origGid false []

/-- The post-dispatch status check of `process_queue` (src/app.py lines
1523-1727).  A clean status enters the monitor loop.  An engine error
on a vimm job with an extractable media id that classifies as
retryable starts the mirror sweep from `current_server = 1` (the
dispatch always rewrote the effective url to dl1, line 1389); every
other error marks the job failed by gid, consuming no mirror
attempts. -/
def immediateCheckRun (u : String) (g : Nat) (statusStr code msg : String)
    (env : Nat → ServerEnv) (q : List QItem) : SweepResult :=
  if !(statusStr == "error" || code != "") then ⟨q, .monitoring g, [], 1⟩
  else
    match extractMediaId u with
    | some mid =>
      if is_vimm_download u && should_retry code msg then
        sweep mid env (retryReason code msg) u q 1 g
      else ⟨failFirstGid g (effectiveMsg code msg) q, .atSelect, [], 1⟩
    | none => ⟨failFirstGid g (effectiveMsg code msg) q, .atSelect, [], 1⟩

/-- Engine status seen by one monitor-loop poll
(src/app.py lines 1743-1817). -/
inductive MonitorRes where
  | active
  | complete (fileExists : Bool)
  | errored (msg : String)

/-- One atomic transition of the queue system: the public routes
(`queue_add`, `queue_start`, `queue_stop`, `queue_clear`) and the
lock-protected steps of the single `process_queue` worker.  Engine and
network outcomes travel inside the operation. -/
inductive QOp where
  | add (url title : String)
  | start
  | stop (active : List Nat)
  | clear
  | selectMark
  | selectExit
  | assignGid (g : Nat)
  | dispatchFailed (msg : String)
  | immediateCheck (statusStr code msg : String) (env : Nat → ServerEnv)
  | monitorPoll (res : MonitorRes)

/-- The transition function.  Operations that do not match the worker
phase leave the state unchanged (they cannot occur). -/
def stepQ (s : QState) (op : QOp) : QState :=
  match op with
  | .add url title =>
    { s with queue := (queue_add url title "" s.queue).2 }
  | .start =>
    -- src/app.py lines 1922-1945: refuse when empty or already
    -- processing; otherwise set the flag and spawn the worker thread
    -- only if the previous one is no longer alive.
    if s.processing || s.queue.isEmpty then s
    else
      { s with processing := true,
               worker := match s.worker with | .dead => .atSelect | w => w }
  | .stop active => (queue_stop active s).1
  | .clear => { s with queue := queue_clear s.queue }
  | .selectMark =>
    -- src/app.py lines 1291-1306 and 1346-1354.
    match s.worker with
    | .atSelect =>
      if !s.processing then { s with worker := .dead }
      else if s.queue.isEmpty then { queue := s.queue, processing := false, worker := .dead }
      else
        match s.queue.find? eligibleItem with
        | some it =>
          { s with queue := markDownloading it.url s.queue,
                   worker := .running it.url none }
        | none => s
    | _ => s
  | .selectExit =>
    -- src/app.py lines 1308-1342, the branch taken when no eligible
    -- item exists and the engine reports nothing still active.
    match s.worker with
    | .atSelect =>
      if s.processing && !s.queue.isEmpty && (s.queue.find? eligibleItem).isNone &&
          s.queue.all (fun it => !it.downloading) then
        { s with processing := false, worker := .dead }
      else s
    | _ => s
  | .assignGid g =>
    match s.worker with
    | .running u none =>
      { s with queue := setGid u g s.queue, worker := .running u (some g) }
    | _ => s
  | .dispatchFailed msg =>
    -- src/app.py lines 1728-1740: aria2 add failed, mark by url.
    match s.worker with
    | .running u _ =>
      { s with queue := failFirstUrl u msg s.queue, worker := .atSelect }
    | _ => s
  | .immediateCheck statusStr code msg env =>
    match s.worker with
    | .running u (some g) =>
      let r := immediateCheckRun u g statusStr code msg env s.queue
      { s with queue := r.queue, worker := r.worker }
    | _ => s
  | .monitorPoll res =>
    -- src/app.py lines 1743-1817; the stop flag is consulted before
    -- each poll, completion requires the file on disk (the extension
    -- reconciliation touches only the name fields and is modelled by
    -- `completion_check` below).
    match s.worker with
    | .monitoring g =>
      if !s.processing then { s with worker := .dead }
      else
        match res with
        | .active => s
        | .complete fileExists =>
          if fileExists then
            { s with queue := completeFirstGid g s.queue, worker := .atSelect }
          else s
        | .errored m =>
          { s with queue := failFirstGid g m s.queue, worker := .atSelect }
    | _ => s

/-- The empty start state: no persisted file means an empty queue, the
processing flag starts false and no worker thread exists. -/
def initQ : QState := ⟨[], false, .dead⟩

/-- Run a sequence of transitions from the empty start state. -/
def runTrace (ops : List QOp) : QState := ops.foldl stepQ initQ

/-- Number of queue items whose `downloading` flag is set. -/
def countDownloading (q : List QItem) : Nat :=
  (q.filter (fun it => it.downloading)).length

/-- Suffix split at the last dot: returns the part before the last dot
and the extension including the dot (empty when there is no dot),
mirroring the extension half of `os.path.splitext` on a basename. -/
def lastDotSplit : List Char → List Char × List Char
  | [] => ([], [])
  | c :: cs =>
    let r := lastDotSplit cs
    if r.2.isEmpty then
      if c == '.' then ([], c :: cs) else (c :: cs, [])
    else (c :: r.1, r.2)

/-- Python `os.path.basename` on the data of a path (the part after the
last slash). -/
def basenameData (l : List Char) : List Char :=
  (l.reverse.takeWhile (fun c => !(c == '/'))).reverse

/-- Python `os.path.basename`. -/
def basenameStr (s : String) : String := ⟨basenameData s.data⟩

/-- Python `os.path.splitext(p)[0]`: the directory part untouched, the
basename split at its last dot. -/
def splitExtBaseData (l : List Char) : List Char :=
  l.take (l.length - (basenameData l).length) ++ (lastDotSplit (basenameData l)).1

/-- The corrected path `os.path.splitext(file_path)[0] + actual_ext`
(src/app.py line 1773). -/
def newPathFor (fp ext : String) : String :=
  String.mk (splitExtBaseData fp.data) ++ ext

/-- Bytes of the full 7z signature `37 7A BC AF 27 1C`
(src/app.py line 1762). -/
def sig7z : List Nat := [55, 122, 188, 175, 39, 28]

/-- Container detection on the first bytes of the downloaded file
(src/app.py lines 1759-1769): ASCII `7z` or the full 7z signature give
`.7z`, a leading `PK` gives `.zip`. -/
def detectExt (magic : List Nat) : Option String :=
  if 2 ≤ magic.length then
    if magic.take 2 == [55, 122] || (decide (6 ≤ magic.length) && magic.take 6 == sig7z) then
      some ".7z"
    else if magic.take 2 == [80, 75] then some ".zip"
    else none
  else none

/-- On-disk state relevant to the completion check: an association of
paths to their byte contents. -/
structure FileSys where
  files : List (String × List Nat)
deriving Repr, DecidableEq

/-- Python `os.path.exists`. -/
def fsExists (fs : FileSys) (p : String) : Bool :=
  fs.files.any (fun e => e.1 == p)

/-- Contents of the file at `p` (empty when absent; the code only
reads paths it has checked exist). -/
def fsRead (fs : FileSys) (p : String) : List Nat :=
  match fs.files.find? (fun e => e.1 == p) with
  | some e => e.2
  | none => []

/-- Python `os.rename(old, np)`: afterwards the target holds the moved
bytes and the source is gone. -/
def fsRename (fs : FileSys) (old np : String) : FileSys :=
  ⟨(np, fsRead fs old) :: fs.files.filter (fun e => !(e.1 == old))⟩

/-- Queue update of the rename step (src/app.py lines 1780-1785): the
first item with the monitored gid gets the corrected filename and
path. -/
def updFilenameByGid (g : Nat) (fn fp : String) (q : List QItem) : List QItem :=
  updateFirstGid g (fun it => { it with filename := fn, file_path := fp }) q

/-- Result of the completion-time extension check: the file system, the
final path and filename, and the queue. -/
structure RenameResult where
  fs : FileSys
  file_path : String
  filename : String
  queue : List QItem
deriving Repr

/-- The completion-time extension reconciliation (src/app.py lines
1756-1789): when the finished file exists, its first six bytes are
compared against the known container signatures; if a format is
detected and the stored path does not already end in the canonical
extension (case-insensitively), the file is renamed to the corrected
path — refusing to overwrite an existing file there — and the queue
record is updated.  In every other case nothing changes. -/
def completion_check (fs : FileSys) (file_path filename : String) (g : Nat)
    (q : List QItem) : RenameResult :=
  if fsExists fs file_path then
    match detectExt ((fsRead fs file_path).take 6) with
    | some actual_ext =>
      if !endsWithStr (lowerStr file_path) (lowerStr actual_ext) then
        if !fsExists fs (newPathFor file_path actual_ext) then
          ⟨fsRename fs file_path (newPathFor file_path actual_ext),
           newPathFor file_path actual_ext,
           basenameStr (newPathFor file_path actual_ext),
           updFilenameByGid g (basenameStr (newPathFor file_path actual_ext))
             (newPathFor file_path actual_ext) q⟩
        else ⟨fs, file_path, filename, q⟩
      else ⟨fs, file_path, filename, q⟩
    | none => ⟨fs, file_path, filename, q⟩
  else ⟨fs, file_path, filename, q⟩

/-- One search result row produced by `search_vimm`
(src/vimm.py lines 466-477); only identity-relevant fields are kept. -/
structure VimmResult where
  Title : String
  Link : String
  Size : Nat
deriving Repr, DecidableEq

/-- Outcome of the scraping body of `search_vimm` (src/vimm.py lines
96-582, the big `try` block), abstracted as an oracle: a network error
(wrapped at line 574), any other exception (wrapped at line 580), a
`VimmError` raised inside the body (re-raised at line 577), or normal
completion with the number of game links found and the accumulated
results. -/
inductive ScrapeOutcome where
  | network (e : String)
  | failedParse (e : String)
  | raisedVimm (e : String)
  | finished (gameLinks : Nat) (results : List VimmResult)

/-- Control flow of `search_vimm` (src/vimm.py lines 78-593): a blank
query short-circuits to the empty list (lines 88-89); exceptions become
`VimmError` (lines 574-582, modelled as `Except.error`); after a
normally completed body the final checks (lines 584-591) raise whenever
the result list is empty, so a non-blank query never returns an empty
list. -/
def search_vimm (query : String) (scrape : ScrapeOutcome) :
    Except String (List VimmResult) :=
  if trimStr query == "" then .ok []
  else
    match scrape with
    | .network e => .error ("Network error: " ++ e)
    | .failedParse e => .error ("Parsing error: " ++ e)
    | .raisedVimm e => .error e
    | .finished gameLinks results =>
      if results.isEmpty && !(gameLinks == 0) then
        .error "Found game links but could not extract download links from any game pages."
      else if results.isEmpty && gameLinks == 0 then
        .error "No results found and no game links were extracted."
      else .ok results

/-- A pending vimm queue item used in concrete states. -/
def mkVimmItem (i : Nat) : QItem :=
  ⟨"https://vimm.net/v" ++ natStr i, "Game " ++ natStr i, "",
   false, false, none, none, "", ""⟩

/-- A store holding the maximum of 20 items, the first of them
non-terminal. -/
def c3Queue : List QItem := (List.range 20).map mkVimmItem

/-- The url of the first item of `c3Queue`, re-submitted. -/
def dupAttemptUrl : String := "https://vimm.net/v0"

/-- A store state with one job mid-download, used against `queue_stop`. -/
def c2Item : QItem :=
  ⟨"https://dl1.vimm.net/?mediaId=7", "Zelda", "", false, true, some 5, none,
   "Zelda.zip", "/opt/rompi/downloads/Zelda.zip"⟩

/-- See `c2Item`. -/
def c2State : QState := ⟨[c2Item], true, .monitoring 5⟩

/-- A job that failed: the worker records the error and sets
`completed` so the item is skipped (src/app.py line 1810). -/
def c9Failed : QItem :=
  ⟨"https://vimm.net/v1", "Peach", "", true, false, some 9,
   some "Unknown error", "", ""⟩

/-- A still-pending job next to `c9Failed`. -/
def c9Pending : QItem :=
  ⟨"https://vimm.net/v2", "Yoshi", "", false, false, none, none, "", ""⟩

/-- Mirror environment for the first job of the C1 trace: dl5 probes
clean and its dispatch starts. -/
def envZ : Nat → ServerEnv := fun n =>
  if n == 5 then ⟨some 200, 101, true⟩ else ⟨some 404, 999, false⟩

/-- Mirror environment for the second job of the C1 trace: dl5 probes
clean but its dispatch errors, dl6 probes clean and starts. -/
def envX : Nat → ServerEnv := fun n =>
  if n == 5 then ⟨some 200, 103, false⟩
  else if n == 6 then ⟨some 200, 104, true⟩
  else ⟨some 404, 999, false⟩

/-- A run of the system (all operations are legal public routes or
worker steps with chosen engine outcomes): a job for media 7 is
enqueued, dispatched, falls back to mirror dl5 and completes — its
stored url is now the dl5 url (src/app.py line 1631).  The same game is
enqueued again (the dl3 url no longer matches any stored url, so the
duplicate check passes) together with a second game.  The retried job
falls back; its dl5 attempt rewrites its own url to the dl5 url, and
the dl6 attempt then rewrites the first matching item with that url —
the completed first job (src/app.py lines 1628-1633) — so the completed
job takes over the gid while the retried job keeps its `downloading`
flag.  Monitoring completes by gid against the hijacked item, the
retried job stays flagged forever, and the next selection marks the
second game as well: two items downloading. -/
def c1Trace : List QOp :=
  [ .add "https://dl3.vimm.net/?mediaId=7" "Zelda",
    .start,
    .selectMark,
    .assignGid 100,
    .immediateCheck "error" "3" "resource not found" envZ,
    .monitorPoll (.complete true),
    .selectExit,
    .add "https://dl3.vimm.net/?mediaId=7" "Zelda",
    .add "https://dl3.vimm.net/?mediaId=8" "Mario",
    .start,
    .selectMark,
    .assignGid 102,
    .immediateCheck "error" "3" "resource not found" envX,
    .monitorPoll (.complete true),
    .selectMark ]

/-- Environment in which every probe is rejected with 404. -/
def envNone : Nat → ServerEnv := fun _ => ⟨some 404, 0, false⟩

/-- Environment in which dl3 probes clean and starts. -/
def envW : Nat → ServerEnv := fun n =>
  if n == 3 then ⟨some 200, 7, true⟩ else ⟨some 429, 0, false⟩

/-- Concrete file system for the rename check: a finished download
whose bytes start with the ZIP signature but whose name ends in
`.bin`. -/
def c8Fs : FileSys :=
  ⟨[("/opt/rompi/downloads/Mario.bin", [80, 75, 3, 4, 0, 0])]⟩

/-- Path of the mis-named download in `c8Fs`. -/
def c8Path : String := "/opt/rompi/downloads/Mario.bin"

/-- Queue record owning the download in `c8Fs`. -/
def c8Queue : List QItem :=
  [⟨"https://dl3.vimm.net/?mediaId=9", "Mario", "", false, true, some 5, none,
    "Mario.bin", "/opt/rompi/downloads/Mario.bin"⟩]

/-- Recovery branch of the selection pass (src/app.py lines 1334-1337):
when the engine status re-probe of a downloading item raises, the item
is merely unflagged — no error is recorded and `completed` stays false
— so it becomes eligible for selection again.  The code clears the
item under iteration; the first flagged item is probed first. -/
def probeExceptionClear : List QItem → List QItem
  | [] => []
  | it :: rest =>
    if it.downloading then { it with downloading := false } :: rest
    else it :: probeExceptionClear rest

/-- Transitions of the lifetime model: the transitions of `stepQ`, plus
the selection-pass recovery in which the re-probe of the single flagged
item raises (src/app.py lines 1308-1342: the flag is cleared, nothing
is reported active, so processing stops and the worker exits), plus a
process restart (the queue survives through `save_queue`/`load_queue`,
src/app.py lines 39-63; `queue_processing` starts false and no worker
thread exists). -/
inductive ROp where
  | base (op : QOp)
  | selectProbeLost
  | restart

/-- State of the lifetime model: the queue system plus the log of
dl-server numbers attempted for the job being driven (the traces used
below hold a single job, so the log is global). -/
structure RState where
  sys : QState
  attempts : List Nat
deriving Repr

/-- Mirror numbers attempted by one base transition, read off the same
code paths `stepQ` models: a dispatch of a vimm url with an extractable
media id always goes to dl1 (src/app.py lines 1388-1391 rewrite the
effective url to dl1 with `current_server = 1`), and a classified
immediate error attempts exactly the sweep's tried list. -/
def attemptsForOp (s : QState) (op : QOp) : List Nat :=
  match op with
  | .assignGid _ =>
    match s.worker with
    | .running u none =>
      if is_vimm_download u && (extractMediaId u).isSome then [1] else []
    | _ => []
  | .immediateCheck statusStr code msg env =>
    match s.worker with
    | .running u (some g) =>
      (immediateCheckRun u g statusStr code msg env s.queue).tried
    | _ => []
  | _ => []

/-- Step function of the lifetime model.  Base operations delegate to
`stepQ` and log their mirror attempts; the other two transitions are as
described on `ROp`. -/
def stepR (s : RState) (op : ROp) : RState :=
  match op with
  | .base qop =>
    { sys := stepQ s.sys qop, attempts := s.attempts ++ attemptsForOp s.sys qop }
  | .selectProbeLost =>
    match s.sys.worker with
    | .atSelect =>
      if s.sys.processing && !s.sys.queue.isEmpty &&
          (s.sys.queue.find? eligibleItem).isNone then
        { sys := { queue := probeExceptionClear s.sys.queue, processing := false,
                   worker := .dead },
          attempts := s.attempts }
      else s
    | _ => s
  | .restart =>
    { sys := { queue := s.sys.queue, processing := false, worker := .dead },
      attempts := s.attempts }

/-- Run a sequence of lifetime-model transitions from the empty start
state. -/
def runTraceR (ops : List ROp) : RState :=
  ops.foldl stepR ⟨initQ, []⟩

/-- A single job driven across a crash recovery: it is enqueued,
dispatched (mirror 1), falls back over mirrors 2-5, and is downloading
from dl5 when the process dies.  On restart the persisted record still
says downloading; the worker re-probe raises (the engine no longer
knows the gid), so the flag is cleared with no error (src/app.py lines
1334-1337) and the job is eligible again.  The next start re-selects
it and the dispatch restarts at dl1 (src/app.py line 1389). -/
def c6Trace : List ROp :=
  [ .base (.add "https://dl3.vimm.net/?mediaId=7" "Zelda"),
    .base .start,
    .base .selectMark,
    .base (.assignGid 100),
    .base (.immediateCheck "error" "3" "resource not found" envZ),
    .restart,
    .base .start,
    .selectProbeLost,
    .base .start,
    .base .selectMark,
    .base (.assignGid 102) ]

/-! Helper lemmas. -/

/-- A list is a prefix of itself followed by anything. -/
theorem isPrefixOf_append_self (a b : List Char) : a.isPrefixOf (a ++ b) = true := by
  induction a with
  | nil => simp [List.isPrefixOf]
  | cons c cs ih => simp [List.isPrefixOf, ih]

/-- A list is a suffix of anything followed by itself. -/
theorem isSuffixOf_append_self (a b : List Char) : a.isSuffixOf (b ++ a) = true := by
  simp only [List.isSuffixOf, List.reverse_append]
  exact isPrefixOf_append_self a.reverse b.reverse

/-- Filtering away a key leaves no entry with that key. -/
theorem filter_any_self (l : List (String × List Nat)) (p : String) :
    (l.filter (fun e => !(e.1 == p))).any (fun e => e.1 == p) = false := by
  induction l with
  | nil => rfl
  | cons e rest ih =>
    by_cases h : (e.1 == p) = true
    · simp [List.filter, h, ih]
    · simp only [Bool.not_eq_true] at h
      simp [List.filter, h, ih]

/-! Claim theorems. -/

/-- Claim C1 (code bug).  The spec invariant says at most one queue
item ever has its downloading flag set.  The run `c1Trace`, built from
legal route calls and worker steps with concrete engine outcomes,
drives the store from empty to a state in which two items are flagged
downloading: the mirror-fallback url rewrite (src/app.py lines
1628-1633) matches queue items by their current `download_url`, and
once a retried url collides with the rewritten url of an earlier
completed job, every later update lands on the wrong item, leaving the
stale `downloading` flag on the retried job while the worker selects
and flags the next one. -/
theorem queue_two_items_marked_downloading :
    countDownloading (runTrace c1Trace).queue = 2 := by decide

/-- Claim C2 (counterexample).  Stopping while `c2Item` is mid-download
removes its engine transfer but also deletes the record itself: the
store is empty afterwards, contradicting the claim that every job
record present before the stop is still present. -/
theorem queue_stop_deletes_records :
    c2Item ∈ c2State.queue ∧ c2Item.downloading = true ∧
    (queue_stop [5] c2State).1.queue = [] ∧
    c2Item ∉ (queue_stop [5] c2State).1.queue ∧
    (queue_stop [5] c2State).2 = [5] := by decide

/-- Claim C2 (amended).  A stop request cancels exactly the
engine-active transfers whose gid matches a queued record, turns
processing off, and clears the whole queue: in this code stop is the
reset operation and deletes all queue contents. -/
theorem queue_stop_clears_and_cancels (active : List Nat) (s : QState) :
    (queue_stop active s).1.queue = [] ∧
    (queue_stop active s).1.processing = false ∧
    ∀ g : Nat, g ∈ (queue_stop active s).2 ↔
      (g ∈ active ∧ s.queue.any (fun it => it.gid == some g) = true) := by
  refine ⟨rfl, rfl, fun g => ?_⟩
  simp [queue_stop, List.mem_filter]

/-- Claim C9 (counterexample).  A failed job carries `completed = true`
(src/app.py line 1810), so the purge of completed items removes it:
after `queue_clear` the failed record is gone, contradicting the claim
that Failed jobs remain in the store. -/
theorem queue_clear_removes_failed :
    c9Failed.error.isSome = true ∧ c9Failed.completed = true ∧
    queue_clear [c9Failed, c9Pending] = [c9Pending] := by decide

/-- Claim C9 (amended).  The purge removes exactly the records whose
`completed` flag is set — which includes failed jobs, because failures
are recorded with `completed = true` — and preserves the relative
order of the remaining records. -/
theorem queue_clear_exactly_completed (q : List QItem) :
    List.Sublist (queue_clear q) q ∧
    (∀ it ∈ q, it.completed = false → it ∈ queue_clear q) ∧
    (∀ it ∈ queue_clear q, it.completed = false ∧ it ∈ q) ∧
    (∀ it ∈ q, it.completed = true → it ∉ queue_clear q) := by
  refine ⟨List.filter_sublist q, fun it hm hc => ?_, fun it hm => ?_, fun it hm hc hin => ?_⟩
  · simp [queue_clear, List.mem_filter, hm, hc]
  · simp only [queue_clear, List.mem_filter, Bool.not_eq_true'] at hm
    exact ⟨hm.2, hm.1⟩
  · simp only [queue_clear, List.mem_filter, Bool.not_eq_true'] at hin
    rw [hc] at hin
    exact absurd hin.2 (by decide)

/-- Witness for the amended C9 theorem at a concrete store. -/
theorem queue_clear_exactly_completed_witness :
    c9Pending ∈ queue_clear [c9Failed, c9Pending] ∧
    c9Failed ∉ queue_clear [c9Failed, c9Pending] :=
  ⟨(queue_clear_exactly_completed [c9Failed, c9Pending]).2.1 c9Pending (by decide) (by decide),
   (queue_clear_exactly_completed [c9Failed, c9Pending]).2.2.2 c9Failed (by decide) (by decide)⟩

/-- Claim C7 (counterexample).  In the direct download route, a probe
answering HTTP 500 — neither a success/redirect status nor 429 nor
404 — is dispatched anyway (src/app.py lines 1084-1087), contradicting
the claim that no other probe outcome leads to a dispatch. -/
theorem download_probe_other_status_dispatched :
    downloadProbeAction 500 = .dispatch ∧ accepted 500 = false ∧
    (500 : Nat) ≠ 429 ∧ (500 : Nat) ≠ 404 := by decide

/-- Claim C7 (amended).  The queue worker dispatches a probed mirror
exactly on the statuses 200/301/302/303/307/308 and skips every other
probe outcome; the direct download route skips only 429 and 404 and
dispatches every other status. -/
theorem probe_action_characterization (st : Nat) :
    (queueProbeAction st = .dispatch ↔ accepted st = true) ∧
    (downloadProbeAction st = .dispatch ↔ (st ≠ 429 ∧ st ≠ 404)) := by
  by_cases hacc : accepted st = true
  · have h404 : st ≠ 429 ∧ st ≠ 404 := by
      simp only [accepted, Bool.or_eq_true, beq_iff_eq] at hacc
      omega
    simp [queueProbeAction, downloadProbeAction, hacc, h404]
  · simp only [Bool.not_eq_true] at hacc
    by_cases h429 : st = 429
    · subst h429
      simp [queueProbeAction, downloadProbeAction, hacc]
    · by_cases h404 : st = 404
      · subst h404
        simp [queueProbeAction, downloadProbeAction, hacc, h429]
      · simp [queueProbeAction, downloadProbeAction, hacc, h429, h404]

/-- Claim C3 (counterexample).  With the store at its 20-item maximum
and the non-terminal first item sharing the attempted url, the enqueue
is rejected — but with the queue-full error, not the duplicate error,
because the capacity check precedes the duplicate check
(src/app.py lines 1874-1888).  The store is unchanged. -/
theorem queue_add_duplicate_at_cap_not_duplicate_error :
    c3Queue.length = 20 ∧
    (∃ it ∈ c3Queue, it.url = trimStr dupAttemptUrl ∧ it.completed = false ∧
      it.error = none) ∧
    (queue_add dupAttemptUrl "Mario" "" c3Queue).1 = .rejectedQueueFull ∧
    (queue_add dupAttemptUrl "Mario" "" c3Queue).1 ≠ .rejectedDuplicate ∧
    (queue_add dupAttemptUrl "Mario" "" c3Queue).2 = c3Queue := by decide

/-- Claim C3 (amended).  An enqueue attempt that passes input
validation and whose url equals the url of a non-terminal stored job is
rejected with the duplicate error and leaves the store unchanged,
provided the store is below its 20-item capacity (at capacity the
queue-full rejection takes precedence). -/
theorem queue_add_duplicate_rejected_below_cap (download_url title gpu : String)
    (q : List QItem)
    (hv : (trimStr download_url == "" ||
      !(startsWithStr (trimStr download_url) "http://" ||
        startsWithStr (trimStr download_url) "https://")) = false)
    (ht : (trimStr title == "") = false)
    (hvimm : is_vimm_queue_add (trimStr download_url) = true)
    (hlen : q.length < MAX_QUEUE_SIZE)
    (hdup : ∃ it ∈ q, it.url = trimStr download_url ∧ it.completed = false ∧
      it.error = none) :
    queue_add download_url title gpu q = (.rejectedDuplicate, q) := by
  obtain ⟨it, hmem, hurl, -, -⟩ := hdup
  have hany : q.any (fun it => it.url == trimStr download_url) = true :=
    List.any_eq_true.mpr ⟨it, hmem, by simp [hurl]⟩
  unfold queue_add
  rw [hv, ht, hvimm, hany]
  simp [Nat.not_le.mpr hlen]

/-- Witness for the amended C3 theorem at a concrete one-item store. -/
theorem queue_add_duplicate_rejected_below_cap_witness :
    queue_add dupAttemptUrl "Mario" "" [mkVimmItem 0] =
      (.rejectedDuplicate, [mkVimmItem 0]) :=
  queue_add_duplicate_rejected_below_cap dupAttemptUrl "Mario" "" [mkVimmItem 0]
    (by decide) (by decide) (by decide) (by decide)
    ⟨mkVimmItem 0, by decide, by decide, by decide, by decide⟩

/-- Claim C4 (confirmed).  The store never exceeds `MAX_QUEUE_SIZE`
(20): any attempt against a full store leaves it untouched; an attempt
that passes input validation against a full store is rejected with the
queue-full error; and an enqueue never pushes the length past the
maximum (src/app.py lines 1874-1879 and 1891-1902). -/
theorem queue_add_cap_enforced (download_url title gpu : String) (q : List QItem) :
    (MAX_QUEUE_SIZE ≤ q.length → (queue_add download_url title gpu q).2 = q) ∧
    ((trimStr download_url == "" ||
        !(startsWithStr (trimStr download_url) "http://" ||
          startsWithStr (trimStr download_url) "https://")) = false →
      (trimStr title == "") = false →
      is_vimm_queue_add (trimStr download_url) = true →
      MAX_QUEUE_SIZE ≤ q.length →
      queue_add download_url title gpu q = (.rejectedQueueFull, q)) ∧
    (q.length ≤ MAX_QUEUE_SIZE → (queue_add download_url title gpu q).2.length ≤ MAX_QUEUE_SIZE) := by
  refine ⟨fun h => ?_, fun hv ht hvimm h => ?_, fun h => ?_⟩
  · unfold queue_add MAX_QUEUE_SIZE
    simp only [MAX_QUEUE_SIZE] at h
    repeat' split
    all_goals first | rfl | omega
  · unfold queue_add
    rw [hv, ht, hvimm]
    simp [h]
  · unfold queue_add MAX_QUEUE_SIZE
    simp only [MAX_QUEUE_SIZE] at h
    repeat' split
    all_goals simp only [List.length_append, List.length_cons, List.length_nil]
    all_goals omega

/-- Witness for the C4 theorem: a valid attempt against the full
concrete store is rejected with the queue-full error. -/
theorem queue_add_cap_enforced_witness :
    queue_add "https://vimm.net/new" "Sonic" "" c3Queue =
      (.rejectedQueueFull, c3Queue) :=
  (queue_add_cap_enforced "https://vimm.net/new" "Sonic" "" c3Queue).2.1
    (by decide) (by decide) (by decide) (by decide)

/-- Claim C5 (confirmed).  After an engine-reported error, the mirror
sweep runs only when the error classifies as retryable — aria2 code 3
or resource-not-found wording, code 19 or DNS wording, a 429 in the
message, or code 22 with not-found/404 wording (src/app.py lines
1540-1551) — so any attempted mirror implies that classification; and
when the error does not classify, the job is marked failed by gid with
the error retained and no mirror attempt is consumed
(src/app.py lines 1698-1721). -/
theorem immediate_error_classification (u : String) (g : Nat)
    (statusStr code msg : String) (env : Nat → ServerEnv) (q : List QItem)
    (herr : statusStr = "error" ∨ code ≠ "") :
    ((immediateCheckRun u g statusStr code msg env q).tried ≠ [] →
      should_retry code msg = true) ∧
    (should_retry code msg = false →
      immediateCheckRun u g statusStr code msg env q =
        ⟨failFirstGid g (effectiveMsg code msg) q, .atSelect, [], 1⟩) := by
  have hcond : (statusStr == "error" || code != "") = true := by
    rcases herr with h | h
    · simp [h]
    · simp [h]
  constructor
  · intro htried
    by_cases hr : should_retry code msg = true
    · exact hr
    · exfalso
      apply htried
      simp only [Bool.not_eq_true] at hr
      simp only [immediateCheckRun, hcond, Bool.not_true, Bool.false_eq_true, if_false]
      cases hmid : extractMediaId u with
      | none => rfl
      | some mid => simp [hr]
  · intro hr
    simp only [immediateCheckRun, hcond, Bool.not_true, Bool.false_eq_true, if_false]
    cases hmid : extractMediaId u with
    | none => rfl
    | some mid => simp [hr]

/-- Witness for the C5 theorem: a disk-full error (aria2 code 9) does
not classify as retryable and sends the job straight to failed with no
mirror attempted. -/
theorem immediate_error_classification_witness :
    should_retry "9" "No space left on device" = false ∧
    immediateCheckRun "https://dl3.vimm.net/?mediaId=7" 42 "error" "9"
        "No space left on device" envNone [mkVimmItem 0] =
      ⟨failFirstGid 42 (effectiveMsg "9" "No space left on device") [mkVimmItem 0],
       .atSelect, [], 1⟩ :=
  ⟨by decide,
   (immediate_error_classification "https://dl3.vimm.net/?mediaId=7" 42 "error" "9"
      "No space left on device" envNone [mkVimmItem 0] (Or.inl rfl)).2 (by decide)⟩

/-- Claim C10 (confirmed).  The search returns the empty list exactly
when the query is blank; for a non-blank query every normal return
carries a non-empty list (any empty outcome is raised as an error by
the final checks, src/vimm.py lines 584-591). -/
theorem search_vimm_empty_iff_blank (query : String) (scrape : ScrapeOutcome) :
    (search_vimm query scrape = .ok [] ↔ trimStr query = "") ∧
    (∀ rs, trimStr query ≠ "" → search_vimm query scrape = .ok rs → rs ≠ []) := by
  by_cases hb : (trimStr query == "") = true
  · have hq : trimStr query = "" := by simpa using hb
    exact ⟨by simp [search_vimm, hb, hq], fun rs hne => absurd hq hne⟩
  · have hq : trimStr query ≠ "" := by simpa using hb
    have hmain : ∀ rs, search_vimm query scrape = .ok rs → rs ≠ [] := by
      intro rs hok
      cases scrape with
      | network e => simp [search_vimm, hb] at hok
      | failedParse e => simp [search_vimm, hb] at hok
      | raisedVimm e => simp [search_vimm, hb] at hok
      | finished gl rs2 =>
        cases rs2 with
        | nil =>
          by_cases hgl : gl = 0 <;> simp [search_vimm, hb, hgl] at hok
        | cons a tl =>
          simp [search_vimm, hb] at hok
          rw [← hok]
          simp
    exact ⟨⟨fun hok => absurd rfl (hmain [] hok), fun hq2 => absurd hq2 hq⟩,
      fun rs hne hok => hmain rs hok⟩

/-- Witness for the C10 theorem: a whitespace query yields the empty
list, and a normal return for a non-blank query is non-empty. -/
theorem search_vimm_empty_iff_blank_witness :
    search_vimm "   " (.finished 0 []) = .ok [] ∧
    ([⟨"Mario", "https://dl3.vimm.net/?mediaId=7", 0⟩] : List VimmResult) ≠ [] :=
  ⟨(search_vimm_empty_iff_blank "   " (.finished 0 [])).1.mpr (by decide),
   (search_vimm_empty_iff_blank "mario"
      (.finished 3 [⟨"Mario", "https://dl3.vimm.net/?mediaId=7", 0⟩])).2
     [⟨"Mario", "https://dl3.vimm.net/?mediaId=7", 0⟩] (by decide) rfl⟩

/-- Every member of `serverRange s k` is at least `s`. -/
theorem serverRange_mem {x s k : Nat} (h : x ∈ serverRange s k) : s ≤ x := by
  induction k generalizing s with
  | zero => simp [serverRange] at h
  | succ k ih =>
    simp only [serverRange, List.mem_cons] at h
    rcases h with rfl | h
    · exact Nat.le_refl x
    · exact Nat.le_of_succ_le (ih h)

/-- The mirror number list is strictly increasing. -/
theorem serverRange_pairwise (s k : Nat) : List.Pairwise (· < ·) (serverRange s k) := by
  induction k generalizing s with
  | zero => simp [serverRange]
  | succ k ih =>
    simp only [serverRange]
    exact List.Pairwise.cons (fun x hx => Nat.lt_of_succ_le (serverRange_mem hx)) (ih (s + 1))

/-- Shape of a sweep run: the attempted mirrors extend the accumulator
by an initial segment of the remaining mirror list, and the final
`current_server` never drops below its starting value. -/
theorem sweepGo_shape (mid : String) (env : Nat → ServerEnv) (reason : String) :
    ∀ (servers : List Nat) (cur : String) (q : List QItem) (cs origGid : Nat)
      (found : Bool) (tried : List Nat),
      List.Pairwise (· < ·) servers → (∀ m ∈ servers, cs < m) →
      (∃ k, (sweepGo mid env reason servers cur q cs origGid found tried).tried
          = tried ++ servers.take k) ∧
      cs ≤ (sweepGo mid env reason servers cur q cs origGid found tried).finalServer := by
  intro servers
  induction servers with
  | nil =>
    intro cur q cs origGid found tried _ _
    constructor
    · refine ⟨0, ?_⟩
      cases found <;> simp [sweepGo]
    · cases found <;> simp [sweepGo]
  | cons n rest ih =>
    intro cur q cs origGid found tried hp hm
    have hpr : List.Pairwise (· < ·) rest := (List.pairwise_cons.mp hp).2
    have hnr : ∀ m ∈ rest, n < m := (List.pairwise_cons.mp hp).1
    have hmr : ∀ m ∈ rest, cs < m := fun m hmem => hm m (List.mem_cons_of_mem n hmem)
    have hcsn : cs < n := hm n (List.mem_cons_self n rest)
    cases hpe : (env n).probe with
    | none =>
      simp only [sweepGo, hpe]
      obtain ⟨⟨k, hk⟩, hfs⟩ := ih cur q cs origGid found (tried ++ [n]) hpr hmr
      refine ⟨⟨k + 1, ?_⟩, hfs⟩
      rw [hk]
      simp [List.take_succ_cons]
    | some st =>
      by_cases hacc : accepted st = true
      · by_cases hdo : (env n).dispatchOk = true
        · simp only [sweepGo, hpe, hacc, hdo, if_true]
          exact ⟨⟨1, by simp [List.take_succ_cons]⟩, Nat.le_refl cs⟩
        · simp only [Bool.not_eq_true] at hdo
          simp only [sweepGo, hpe, hacc, hdo, if_true, Bool.false_eq_true, if_false]
          obtain ⟨⟨k, hk⟩, hfs⟩ :=
            ih (if (rewriteFirstUrl cur (env n).g (dlUrl n mid) q).2 then dlUrl n mid else cur)
              (rewriteFirstUrl cur (env n).g (dlUrl n mid) q).1 n origGid true (tried ++ [n])
              hpr hnr
          refine ⟨⟨k + 1, ?_⟩, Nat.le_trans (Nat.le_of_lt hcsn) hfs⟩
          rw [hk]
          simp [List.take_succ_cons]
      · simp only [Bool.not_eq_true] at hacc
        simp only [sweepGo, hpe, hacc, Bool.false_eq_true, if_false]
        obtain ⟨⟨k, hk⟩, hfs⟩ := ih cur q cs origGid found (tried ++ [n]) hpr hmr
        refine ⟨⟨k + 1, ?_⟩, hfs⟩
        rw [hk]
        simp [List.take_succ_cons]

/-- Claim C6 (amended).  Within a single mirror-fallback sweep the
attempted mirror numbers are strictly increasing, every attempted
mirror is strictly greater than the starting `current_server`, and the
recorded `current_server` never decreases (src/app.py lines 1580-1655:
the sweep walks `range(current_server + 1, 21)` and only ever stores a
visited server number).  Across the whole lifetime of a job the claim
fails: see `mirror_index_decreases_after_recovery`. -/
theorem mirror_index_monotone (mid : String) (env : Nat → ServerEnv)
    (reason cur : String) (q : List QItem) (cs origGid : Nat) :
    List.Chain' (· < ·) (sweep mid env reason cur q cs origGid).tried ∧
    (∀ n ∈ (sweep mid env reason cur q cs origGid).tried, cs < n) ∧
    cs ≤ (sweep mid env reason cur q cs origGid).finalServer := by
  have hp := serverRange_pairwise (cs + 1) (20 - cs)
  have hm : ∀ m ∈ serverRange (cs + 1) (20 - cs), cs < m :=
    fun m hmem => Nat.lt_of_succ_le (serverRange_mem hmem)
  obtain ⟨⟨k, hk⟩, hfs⟩ :=
    sweepGo_shape mid env reason (serverRange (cs + 1) (20 - cs)) cur q cs origGid
      false [] hp hm
  have hk2 : (sweep mid env reason cur q cs origGid).tried
      = (serverRange (cs + 1) (20 - cs)).take k := by
    simpa [sweep] using hk
  refine ⟨?_, ?_, hfs⟩
  · rw [hk2]
    exact (hp.sublist (List.take_sublist k _)).chain'
  · intro n hn
    rw [hk2] at hn
    exact hm n ((List.take_sublist k _).subset hn)

/-- Witness for the C6 theorem at a concrete environment in which
mirrors 2 and 3 are attempted from a starting server of 1. -/
theorem mirror_index_monotone_witness :
    List.Chain' (· < ·) (sweep "7" envW "Rate limited (429)" "u" [] 1 9).tried ∧
    (∀ n ∈ (sweep "7" envW "Rate limited (429)" "u" [] 1 9).tried, 1 < n) ∧
    1 ≤ (sweep "7" envW "Rate limited (429)" "u" [] 1 9).finalServer :=
  mirror_index_monotone "7" envW "Rate limited (429)" "u" [] 1 9

/-- Appending strings appends their data. -/
theorem string_append_data (s t : String) : (s ++ t).data = s.data ++ t.data := by
  cases s
  cases t
  rfl

/-- The container detection only ever reports the two archive
extensions. -/
theorem detectExt_cases {magic : List Nat} {e : String}
    (h : detectExt magic = some e) : e = ".7z" ∨ e = ".zip" := by
  unfold detectExt at h
  split at h
  · split at h
    · cases h
      exact Or.inl rfl
    · split at h
      · cases h
        exact Or.inr rfl
      · cases h
  · cases h

/-- The corrected path always ends (case-insensitively) in the detected
extension, because it is built as base-plus-extension. -/
theorem endsWith_lower_newPath (fp ext : String) :
    endsWithStr (lowerStr (newPathFor fp ext)) (lowerStr ext) = true := by
  have h1 : (newPathFor fp ext).data = splitExtBaseData fp.data ++ ext.data :=
    string_append_data ⟨splitExtBaseData fp.data⟩ ext
  simp only [endsWithStr, lowerStr, h1, List.map_append]
  exact isSuffixOf_append_self _ _

/-- Reading the corrected path after the rename yields the moved
bytes. -/
theorem fsRead_rename_self (fs : FileSys) (old np : String) :
    fsRead (fsRename fs old np) np = fsRead fs old := by
  unfold fsRead fsRename
  rw [List.find?_cons_of_pos _ (by simp)]
  rfl

/-- Claim C8 (confirmed).  When the finished file exists, its leading
bytes identify a container format, and the stored path does not already
end in the canonical extension, then: if no file occupies the corrected
path, the completion check renames the file there exactly once (the
bytes move, the old path disappears) and rewrites the stored filename
and path of the owning queue record, and running the check again on the
outcome changes nothing (idempotence); if a file already occupies the
corrected path, the check refuses to overwrite it and changes nothing
(src/app.py lines 1756-1789). -/
theorem completion_rename_once_idempotent (fs : FileSys) (fp fn : String) (g : Nat)
    (q : List QItem) (ext : String)
    (hex : fsExists fs fp = true)
    (hdet : detectExt ((fsRead fs fp).take 6) = some ext)
    (hmis : endsWithStr (lowerStr fp) (lowerStr ext) = false) :
    (fsExists fs (newPathFor fp ext) = false →
      completion_check fs fp fn g q =
        ⟨fsRename fs fp (newPathFor fp ext), newPathFor fp ext,
         basenameStr (newPathFor fp ext),
         updFilenameByGid g (basenameStr (newPathFor fp ext)) (newPathFor fp ext) q⟩ ∧
      fsExists (completion_check fs fp fn g q).fs (newPathFor fp ext) = true ∧
      fsExists (completion_check fs fp fn g q).fs fp = false ∧
      fsRead (completion_check fs fp fn g q).fs (newPathFor fp ext) = fsRead fs fp ∧
      completion_check (completion_check fs fp fn g q).fs
          (completion_check fs fp fn g q).file_path
          (completion_check fs fp fn g q).filename g
          (completion_check fs fp fn g q).queue = completion_check fs fp fn g q) ∧
    (fsExists fs (newPathFor fp ext) = true →
      completion_check fs fp fn g q = ⟨fs, fp, fn, q⟩) := by
  have hne : newPathFor fp ext ≠ fp := by
    intro heq
    have hself := endsWith_lower_newPath fp ext
    rw [heq] at hself
    rw [hself] at hmis
    cases hmis
  constructor
  · intro hfree
    have hbr : completion_check fs fp fn g q =
        ⟨fsRename fs fp (newPathFor fp ext), newPathFor fp ext,
         basenameStr (newPathFor fp ext),
         updFilenameByGid g (basenameStr (newPathFor fp ext)) (newPathFor fp ext) q⟩ := by
      unfold completion_check
      rw [hex, hdet]
      simp [hmis, hfree]
    have hnp2 : fsExists (fsRename fs fp (newPathFor fp ext)) (newPathFor fp ext) = true := by
      simp [fsRename, fsExists]
    have hfp2 : fsExists (fsRename fs fp (newPathFor fp ext)) fp = false := by
      simp only [fsRename, fsExists, List.any_cons, filter_any_self, Bool.or_false]
      simp [hne]
    have hrd := fsRead_rename_self fs fp (newPathFor fp ext)
    have hid : completion_check (fsRename fs fp (newPathFor fp ext)) (newPathFor fp ext)
        (basenameStr (newPathFor fp ext)) g
        (updFilenameByGid g (basenameStr (newPathFor fp ext)) (newPathFor fp ext) q) =
        ⟨fsRename fs fp (newPathFor fp ext), newPathFor fp ext,
         basenameStr (newPathFor fp ext),
         updFilenameByGid g (basenameStr (newPathFor fp ext)) (newPathFor fp ext) q⟩ := by
      unfold completion_check
      rw [hnp2, hrd, hdet]
      simp [endsWith_lower_newPath]
    refine ⟨hbr, ?_, ?_, ?_, ?_⟩
    · rw [hbr]
      exact hnp2
    · rw [hbr]
      exact hfp2
    · rw [hbr]
      exact hrd
    · rw [hbr]
      exact hid
  · intro hfull
    unfold completion_check
    rw [hex, hdet]
    simp [hmis, hfull]

/-- Witness for the C8 theorem: the concrete mis-named ZIP download is
renamed to the corrected path exactly once and a second check is a
no-op. -/
theorem completion_rename_once_idempotent_witness :
    completion_check c8Fs c8Path "Mario.bin" 5 c8Queue =
      ⟨fsRename c8Fs c8Path (newPathFor c8Path ".zip"), newPathFor c8Path ".zip",
       basenameStr (newPathFor c8Path ".zip"),
       updFilenameByGid 5 (basenameStr (newPathFor c8Path ".zip"))
         (newPathFor c8Path ".zip") c8Queue⟩ ∧
    fsExists (completion_check c8Fs c8Path "Mario.bin" 5 c8Queue).fs
      (newPathFor c8Path ".zip") = true ∧
    fsExists (completion_check c8Fs c8Path "Mario.bin" 5 c8Queue).fs c8Path = false ∧
    fsRead (completion_check c8Fs c8Path "Mario.bin" 5 c8Queue).fs
      (newPathFor c8Path ".zip") = fsRead c8Fs c8Path ∧
    completion_check (completion_check c8Fs c8Path "Mario.bin" 5 c8Queue).fs
        (completion_check c8Fs c8Path "Mario.bin" 5 c8Queue).file_path
        (completion_check c8Fs c8Path "Mario.bin" 5 c8Queue).filename 5
        (completion_check c8Fs c8Path "Mario.bin" 5 c8Queue).queue
      = completion_check c8Fs c8Path "Mario.bin" 5 c8Queue :=
  (completion_rename_once_idempotent c8Fs c8Path "Mario.bin" 5 c8Queue ".zip"
    (by decide) (by decide) (by decide)).1 (by decide)

/-- Claim C6 (counterexample).  Across the lifetime of a single job the
attempted mirror number does decrease: the job is dispatched (mirror
1), falls back over mirrors 2-5 and is downloading from dl5 when the
process restarts; the selection re-probe raises and clears the
downloading flag with no error recorded (src/app.py lines 1334-1337),
so the same job is selected again and its re-dispatch starts back at
dl1 (src/app.py line 1389) — mirror 1 after mirror 5, and not past its
last attempted mirror.  The final conjunct shows the store still holds
exactly that one job, mid-download from its re-dispatch. -/
theorem mirror_index_decreases_after_recovery :
    (runTraceR c6Trace).attempts = [1, 2, 3, 4, 5, 1] ∧
    ¬ List.Chain' (· ≤ ·) (runTraceR c6Trace).attempts ∧
    (runTraceR c6Trace).sys.queue.length = 1 ∧
    (runTraceR c6Trace).sys.queue.map
        (fun it => (it.url, it.downloading, it.completed, it.error))
      = [("https://dl5.vimm.net/?mediaId=7", true, false, none)] := by
  have h : (runTraceR c6Trace).attempts = [1, 2, 3, 4, 5, 1] := by decide
  refine ⟨h, ?_, by decide, by decide⟩
  rw [h]
  simp only [List.chain'_cons, List.chain'_singleton, and_true]
  omega
